import Mathlib

/-!
Verification development for the audio AIDL/legacy type-conversion contract,
the NDK media muxer binding, and the media extractor packaging descriptor of
this repository fragment.  The conversion-layer implementation itself is not
part of the fragment (only its conformance test suite is), so the conversion
operations are modelled from the specification and checked against the
outcomes the conformance suite prescribes; the muxer binding and the
packaging descriptor are embedded from their source files directly.
-/

/-!
Interface-description (AIDL) channel constants, as fixed by the external
AudioChannelLayout interface contract (spec section 6): named position flags
for the layoutMask namespace, voice bits for the voiceMask namespace, and the
named stereo/index masks used by the conformance suite.
-/

def CHANNEL_FRONT_LEFT : Nat := 0x1
def CHANNEL_FRONT_RIGHT : Nat := 0x2
def CHANNEL_FRONT_CENTER : Nat := 0x4
def CHANNEL_LOW_FREQUENCY : Nat := 0x8
def CHANNEL_BACK_LEFT : Nat := 0x10
def CHANNEL_BACK_RIGHT : Nat := 0x20
def CHANNEL_FRONT_LEFT_OF_CENTER : Nat := 0x40
def CHANNEL_FRONT_RIGHT_OF_CENTER : Nat := 0x80
def CHANNEL_BACK_CENTER : Nat := 0x100
def CHANNEL_SIDE_LEFT : Nat := 0x200
def CHANNEL_SIDE_RIGHT : Nat := 0x400
def CHANNEL_TOP_CENTER : Nat := 0x800
def CHANNEL_TOP_FRONT_LEFT : Nat := 0x1000
def CHANNEL_TOP_FRONT_CENTER : Nat := 0x2000
def CHANNEL_TOP_FRONT_RIGHT : Nat := 0x4000
def CHANNEL_TOP_BACK_LEFT : Nat := 0x8000
def CHANNEL_TOP_BACK_CENTER : Nat := 0x10000
def CHANNEL_TOP_BACK_RIGHT : Nat := 0x20000
def CHANNEL_TOP_SIDE_LEFT : Nat := 0x40000
def CHANNEL_TOP_SIDE_RIGHT : Nat := 0x80000
def CHANNEL_BOTTOM_FRONT_LEFT : Nat := 0x100000
def CHANNEL_BOTTOM_FRONT_CENTER : Nat := 0x200000
def CHANNEL_BOTTOM_FRONT_RIGHT : Nat := 0x400000
def CHANNEL_LOW_FREQUENCY_2 : Nat := 0x800000
def CHANNEL_FRONT_WIDE_LEFT : Nat := 0x1000000
def CHANNEL_FRONT_WIDE_RIGHT : Nat := 0x2000000
def CHANNEL_HAPTIC_B : Nat := 0x20000000
def CHANNEL_HAPTIC_A : Nat := 0x40000000

def CHANNEL_VOICE_UPLINK : Nat := 0x4000
def CHANNEL_VOICE_DNLINK : Nat := 0x8000

def LAYOUT_STEREO : Nat := CHANNEL_FRONT_LEFT ||| CHANNEL_FRONT_RIGHT
def VOICE_UPLINK_MONO : Nat := CHANNEL_VOICE_UPLINK
def VOICE_DNLINK_MONO : Nat := CHANNEL_VOICE_DNLINK
def VOICE_CALL_MONO : Nat := CHANNEL_VOICE_UPLINK ||| CHANNEL_VOICE_DNLINK
def INDEX_MASK_2 : Nat := 3

/-!
Legacy (native) channel mask constants, fixed platform bit literals of the
external legacy value model (spec section 6).  Output positional bits, input
positional bits, input-only voice and sensor bits, and the derived named
masks used by the conformance suite's edge-case table.
-/

def AUDIO_CHANNEL_NONE : Nat := 0
def AUDIO_CHANNEL_INVALID : Nat := 0xC0000000

/-- Legacy index-representation header: an index-mask value is stored as this
header OR-ed with the index bits. -/
def AUDIO_CHANNEL_INDEX_HDR : Nat := 0x80000000

def AUDIO_CHANNEL_OUT_FRONT_CENTER : Nat := 0x4
def AUDIO_CHANNEL_OUT_LOW_FREQUENCY : Nat := 0x8
def AUDIO_CHANNEL_OUT_TOP_FRONT_RIGHT : Nat := 0x4000
def AUDIO_CHANNEL_OUT_TOP_BACK_LEFT : Nat := 0x8000

def AUDIO_CHANNEL_IN_LEFT : Nat := 0x4
def AUDIO_CHANNEL_IN_RIGHT : Nat := 0x8
def AUDIO_CHANNEL_IN_FRONT : Nat := 0x10
def AUDIO_CHANNEL_IN_BACK : Nat := 0x20
def AUDIO_CHANNEL_IN_LEFT_PROCESSED : Nat := 0x40
def AUDIO_CHANNEL_IN_RIGHT_PROCESSED : Nat := 0x80
def AUDIO_CHANNEL_IN_FRONT_PROCESSED : Nat := 0x100
def AUDIO_CHANNEL_IN_BACK_PROCESSED : Nat := 0x200
def AUDIO_CHANNEL_IN_PRESSURE : Nat := 0x400
def AUDIO_CHANNEL_IN_X_AXIS : Nat := 0x800
def AUDIO_CHANNEL_IN_Y_AXIS : Nat := 0x1000
def AUDIO_CHANNEL_IN_Z_AXIS : Nat := 0x2000
def AUDIO_CHANNEL_IN_VOICE_UPLINK : Nat := 0x4000
def AUDIO_CHANNEL_IN_VOICE_DNLINK : Nat := 0x8000
def AUDIO_CHANNEL_IN_BACK_LEFT : Nat := 0x10000
def AUDIO_CHANNEL_IN_BACK_RIGHT : Nat := 0x20000
def AUDIO_CHANNEL_IN_LOW_FREQUENCY : Nat := 0x100000
def AUDIO_CHANNEL_IN_TOP_LEFT : Nat := 0x200000
def AUDIO_CHANNEL_IN_TOP_RIGHT : Nat := 0x400000

def AUDIO_CHANNEL_IN_MONO : Nat := AUDIO_CHANNEL_IN_FRONT
def AUDIO_CHANNEL_IN_STEREO : Nat := AUDIO_CHANNEL_IN_LEFT ||| AUDIO_CHANNEL_IN_RIGHT
def AUDIO_CHANNEL_IN_6 : Nat :=
  AUDIO_CHANNEL_IN_LEFT ||| AUDIO_CHANNEL_IN_RIGHT |||
  AUDIO_CHANNEL_IN_FRONT ||| AUDIO_CHANNEL_IN_BACK |||
  AUDIO_CHANNEL_IN_LEFT_PROCESSED ||| AUDIO_CHANNEL_IN_RIGHT_PROCESSED
def AUDIO_CHANNEL_IN_VOICE_UPLINK_MONO : Nat :=
  AUDIO_CHANNEL_IN_VOICE_UPLINK ||| AUDIO_CHANNEL_IN_MONO
def AUDIO_CHANNEL_IN_VOICE_DNLINK_MONO : Nat :=
  AUDIO_CHANNEL_IN_VOICE_DNLINK ||| AUDIO_CHANNEL_IN_MONO
def AUDIO_CHANNEL_IN_VOICE_CALL_MONO : Nat :=
  AUDIO_CHANNEL_IN_VOICE_UPLINK_MONO ||| AUDIO_CHANNEL_IN_VOICE_DNLINK_MONO

/-- The interface-description ChannelLayout value: a tagged variant with
exactly one active case (spec section 3). -/
inductive AudioChannelLayout where
  | none : AudioChannelLayout
  | invalid (value : Int) : AudioChannelLayout
  | layoutMask (mask : Nat) : AudioChannelLayout
  | indexMask (mask : Nat) : AudioChannelLayout
  | voiceMask (mask : Nat) : AudioChannelLayout
deriving DecidableEq

/-- Modelled from the spec: bit-for-bit translation through a table of
(source bit pattern, target bit pattern) pairs; the conversion succeeds
exactly when the table entries matched in the source mask cover it entirely
(spec section 4.1: unmapped bits have no equivalent and cause a typed
conversion failure).  The conversion implementation file is not part of this
fragment. -/
def convertBits (pairs : List (Nat × Nat)) (mask : Nat) : Option Nat :=
  let covered := pairs.foldl (fun acc p => if mask &&& p.1 = p.1 then acc ||| p.1 else acc) 0
  let image := pairs.foldl (fun acc p => if mask &&& p.1 = p.1 then acc ||| p.2 else acc) 0
  if covered = mask then some image else Option.none

def swapPairs (pairs : List (Nat × Nat)) : List (Nat × Nat) :=
  pairs.map (fun p => (p.2, p.1))

/-- Modelled from the spec: the output-direction position-flag vocabulary
(spec sections 4.1 and 8.1) as (legacy bit, interface bit) pairs; the
conversion implementation and the platform headers fixing the legacy bit
literals are not part of this fragment. -/
def outChannelPairs : List (Nat × Nat) := [
  (0x1, CHANNEL_FRONT_LEFT),
  (0x2, CHANNEL_FRONT_RIGHT),
  (0x4, CHANNEL_FRONT_CENTER),
  (0x8, CHANNEL_LOW_FREQUENCY),
  (0x10, CHANNEL_BACK_LEFT),
  (0x20, CHANNEL_BACK_RIGHT),
  (0x40, CHANNEL_FRONT_LEFT_OF_CENTER),
  (0x80, CHANNEL_FRONT_RIGHT_OF_CENTER),
  (0x100, CHANNEL_BACK_CENTER),
  (0x200, CHANNEL_SIDE_LEFT),
  (0x400, CHANNEL_SIDE_RIGHT),
  (0x800, CHANNEL_TOP_CENTER),
  (0x1000, CHANNEL_TOP_FRONT_LEFT),
  (0x2000, CHANNEL_TOP_FRONT_CENTER),
  (0x4000, CHANNEL_TOP_FRONT_RIGHT),
  (0x8000, CHANNEL_TOP_BACK_LEFT),
  (0x10000, CHANNEL_TOP_BACK_CENTER),
  (0x20000, CHANNEL_TOP_BACK_RIGHT),
  (0x40000, CHANNEL_TOP_SIDE_LEFT),
  (0x80000, CHANNEL_TOP_SIDE_RIGHT),
  (0x100000, CHANNEL_BOTTOM_FRONT_LEFT),
  (0x200000, CHANNEL_BOTTOM_FRONT_CENTER),
  (0x400000, CHANNEL_BOTTOM_FRONT_RIGHT),
  (0x800000, CHANNEL_LOW_FREQUENCY_2),
  (0x1000000, CHANNEL_FRONT_WIDE_LEFT),
  (0x2000000, CHANNEL_FRONT_WIDE_RIGHT),
  (0x10000000, CHANNEL_HAPTIC_B),
  (0x20000000, CHANNEL_HAPTIC_A)]

/-- Modelled from the spec: the smaller input-direction positional
vocabulary (spec section 4.1) as (legacy bit, interface bit) pairs; the
processed, pressure, axis and voice bits deliberately have no entry, which
is what makes the edge-case table's invalid input masks fail.  The
conversion implementation is not part of this fragment. -/
def inChannelPairs : List (Nat × Nat) := [
  (AUDIO_CHANNEL_IN_LEFT, CHANNEL_FRONT_LEFT),
  (AUDIO_CHANNEL_IN_RIGHT, CHANNEL_FRONT_RIGHT),
  (AUDIO_CHANNEL_IN_FRONT, CHANNEL_FRONT_CENTER),
  (AUDIO_CHANNEL_IN_BACK, CHANNEL_BACK_CENTER),
  (AUDIO_CHANNEL_IN_BACK_LEFT, CHANNEL_BACK_LEFT),
  (AUDIO_CHANNEL_IN_BACK_RIGHT, CHANNEL_BACK_RIGHT),
  (AUDIO_CHANNEL_IN_LOW_FREQUENCY, CHANNEL_LOW_FREQUENCY),
  (AUDIO_CHANNEL_IN_TOP_LEFT, CHANNEL_TOP_SIDE_LEFT),
  (AUDIO_CHANNEL_IN_TOP_RIGHT, CHANNEL_TOP_SIDE_RIGHT)]

/-- Modelled from the spec: the input-only voice-call vocabulary (spec
section 4.1) as (legacy pattern, interface voice bit) pairs; a voice pattern
always carries the legacy mono bit alongside the voice bit, which is what
makes a bare stereo-plus-voice-bit combination ambiguous and rejected. -/
def voiceChannelPairs : List (Nat × Nat) := [
  (AUDIO_CHANNEL_IN_VOICE_UPLINK_MONO, CHANNEL_VOICE_UPLINK),
  (AUDIO_CHANNEL_IN_VOICE_DNLINK_MONO, CHANNEL_VOICE_DNLINK)]

/-- Modelled from the spec: interface-to-legacy channel layout conversion
(spec section 4.1); the implementation file is not part of this fragment,
only its conformance suite.  Direction is an explicit side input; failures
are the typed error channel, encoded as Option.none. -/
def aidl2legacy_AudioChannelLayout_audio_channel_mask_t
    (aidl : AudioChannelLayout) (isInput : Bool) : Option Nat :=
  match aidl with
  | .none => some AUDIO_CHANNEL_NONE
  | .invalid _ => some AUDIO_CHANNEL_INVALID
  | .layoutMask m =>
      convertBits (swapPairs (if isInput then inChannelPairs else outChannelPairs)) m
  | .indexMask m =>
      if 0 < m ∧ m < 2 ^ 24 then some (AUDIO_CHANNEL_INDEX_HDR ||| m) else Option.none
  | .voiceMask m =>
      if isInput then convertBits (swapPairs voiceChannelPairs) m else Option.none

/-- Modelled from the spec: legacy-to-interface channel layout conversion
(spec section 4.1); the implementation file is not part of this fragment,
only its conformance suite.  The none and invalid markers round-trip as
data; index-representation masks are recognised by their header bits; for
the input direction the voice vocabulary is matched first as whole patterns,
and any leftover voice, sensor or processed bit makes the positional
translation fail. -/
def legacy2aidl_audio_channel_mask_t_AudioChannelLayout
    (legacy : Nat) (isInput : Bool) : Option AudioChannelLayout :=
  if legacy = AUDIO_CHANNEL_NONE then some AudioChannelLayout.none
  else if legacy = AUDIO_CHANNEL_INVALID then some (AudioChannelLayout.invalid 0)
  else if AUDIO_CHANNEL_INDEX_HDR ≤ legacy ∧ legacy < AUDIO_CHANNEL_INVALID then
    some (AudioChannelLayout.indexMask (legacy - AUDIO_CHANNEL_INDEX_HDR))
  else if isInput then
    match convertBits voiceChannelPairs legacy with
    | some v => some (AudioChannelLayout.voiceMask v)
    | Option.none => (convertBits inChannelPairs legacy).map AudioChannelLayout.layoutMask
  else
    (convertBits outChannelPairs legacy).map AudioChannelLayout.layoutMask

/-- The 28 named output-direction position flags swept by the conformance
suite's round-trip instantiations (test file lines 230-301) and enumerated
by the round-trip law for ChannelLayout (spec section 8.1). -/
def outNamedChannelFlags : List Nat := [
  CHANNEL_FRONT_LEFT, CHANNEL_FRONT_RIGHT, CHANNEL_BACK_CENTER,
  CHANNEL_BACK_LEFT, CHANNEL_BACK_RIGHT, CHANNEL_FRONT_CENTER,
  CHANNEL_LOW_FREQUENCY, CHANNEL_TOP_SIDE_LEFT, CHANNEL_TOP_SIDE_RIGHT,
  CHANNEL_FRONT_LEFT_OF_CENTER, CHANNEL_FRONT_RIGHT_OF_CENTER,
  CHANNEL_SIDE_LEFT, CHANNEL_SIDE_RIGHT, CHANNEL_TOP_CENTER,
  CHANNEL_TOP_FRONT_LEFT, CHANNEL_TOP_FRONT_CENTER, CHANNEL_TOP_FRONT_RIGHT,
  CHANNEL_TOP_BACK_LEFT, CHANNEL_TOP_BACK_CENTER, CHANNEL_TOP_BACK_RIGHT,
  CHANNEL_BOTTOM_FRONT_LEFT, CHANNEL_BOTTOM_FRONT_CENTER,
  CHANNEL_BOTTOM_FRONT_RIGHT, CHANNEL_LOW_FREQUENCY_2,
  CHANNEL_FRONT_WIDE_LEFT, CHANNEL_FRONT_WIDE_RIGHT,
  CHANNEL_HAPTIC_A, CHANNEL_HAPTIC_B]

/-!
Representative value generators of the conformance suite (test file lines
45-177): one constructor per representative, mirroring the make functions of
the suite, so that hash-identity statements compare independently written
constructions.
-/

def make_ACL_None : AudioChannelLayout := AudioChannelLayout.none

def make_ACL_Invalid : AudioChannelLayout := AudioChannelLayout.invalid 0

def make_ACL_Stereo : AudioChannelLayout := AudioChannelLayout.layoutMask LAYOUT_STEREO

def make_ACL_LayoutArbitrary : AudioChannelLayout :=
  AudioChannelLayout.layoutMask
    (CHANNEL_FRONT_LEFT ||| CHANNEL_FRONT_RIGHT |||
     CHANNEL_TOP_SIDE_LEFT ||| CHANNEL_TOP_SIDE_RIGHT)

def make_ACL_ChannelIndex2 : AudioChannelLayout := AudioChannelLayout.indexMask INDEX_MASK_2

def make_ACL_ChannelIndexArbitrary : AudioChannelLayout := AudioChannelLayout.indexMask 5

def make_ACL_VoiceCall : AudioChannelLayout := AudioChannelLayout.voiceMask VOICE_CALL_MONO

/-- The device-type enumeration literals used by the conformance suite's
representative DeviceDescription set (external interface, spec section 6). -/
inductive AudioDeviceType where
  | NONE : AudioDeviceType
  | IN_DEFAULT : AudioDeviceType
  | OUT_DEFAULT : AudioDeviceType
  | OUT_HEADSET : AudioDeviceType
deriving DecidableEq

/-- The interface-description DeviceDescription value: a device-type
enumeration plus a free-form connection-type string (spec section 3). -/
structure AudioDeviceDescription where
  type : AudioDeviceType
  connection : String
deriving DecidableEq

def CONNECTION_ANALOG : String := "analog"

def CONNECTION_BT_SCO : String := "bt-sco"

def make_ADD_None : AudioDeviceDescription :=
  { type := AudioDeviceType.NONE, connection := "" }

def make_ADD_DefaultIn : AudioDeviceDescription :=
  { type := AudioDeviceType.IN_DEFAULT, connection := "" }

def make_ADD_DefaultOut : AudioDeviceDescription :=
  { type := AudioDeviceType.OUT_DEFAULT, connection := "" }

def make_ADD_WiredHeadset : AudioDeviceDescription :=
  { type := AudioDeviceType.OUT_HEADSET, connection := CONNECTION_ANALOG }

def make_ADD_BtScoHeadset : AudioDeviceDescription :=
  { type := AudioDeviceType.OUT_HEADSET, connection := CONNECTION_BT_SCO }

/-- The format-type enumeration of the interface FormatDescription (spec
section 3): PCM, bitstream via default type plus encoding, or the explicit
invalid sentinel. -/
inductive AudioFormatType where
  | DEFAULT : AudioFormatType
  | SYS_RESERVED_INVALID : AudioFormatType
  | PCM : AudioFormatType
deriving DecidableEq

/-- The PCM-subtype enumeration literals used by the conformance suite. -/
inductive PcmType where
  | DEFAULT : PcmType
  | INT_16_BIT : PcmType
deriving DecidableEq

/-- The interface-description FormatDescription value: a format type, an
optional PCM subtype (meaningful for PCM and encapsulated formats) and a
string encoding identifier (spec section 3). -/
structure AudioFormatDescription where
  type : AudioFormatType
  pcm : PcmType
  encoding : String
deriving DecidableEq

def make_AFD_Default : AudioFormatDescription :=
  { type := AudioFormatType.DEFAULT, pcm := PcmType.DEFAULT, encoding := "" }

def make_AFD_Invalid : AudioFormatDescription :=
  { type := AudioFormatType.SYS_RESERVED_INVALID, pcm := PcmType.DEFAULT, encoding := "" }

def make_AFD_Pcm16Bit : AudioFormatDescription :=
  { type := AudioFormatType.PCM, pcm := PcmType.INT_16_BIT, encoding := "" }

def make_AFD_Bitstream : AudioFormatDescription :=
  { type := AudioFormatType.DEFAULT, pcm := PcmType.DEFAULT, encoding := "example" }

def make_AFD_Encap : AudioFormatDescription :=
  { type := AudioFormatType.DEFAULT, pcm := PcmType.INT_16_BIT, encoding := "example.encap" }

def make_AFD_Encap_with_Enc : AudioFormatDescription :=
  { make_AFD_Encap with encoding := make_AFD_Encap.encoding ++ "+example" }

/-- Modelled from the spec: a string hash that is a pure function of the
character sequence; the standard-library hash specialisations the suite
relies on are not part of this fragment (spec section 4.1, hash-identity
law). -/
def hashString (s : String) : Nat :=
  s.data.foldl (fun h c => h * 31 + c.toNat) 7

/-- Modelled from the spec: the ChannelLayout hash, a pure function of the
active case and its payload (spec sections 3 and 4.1); the generated hash
specialisation is not part of this fragment. -/
def hashACL : AudioChannelLayout → Nat
  | AudioChannelLayout.none => 0
  | AudioChannelLayout.invalid v => 1 * 2 ^ 32 + (2 * v.natAbs + if v < 0 then 1 else 0)
  | AudioChannelLayout.layoutMask m => 2 * 2 ^ 32 + m
  | AudioChannelLayout.indexMask m => 3 * 2 ^ 32 + m
  | AudioChannelLayout.voiceMask m => 4 * 2 ^ 32 + m

def audioDeviceTypeIndex : AudioDeviceType → Nat
  | AudioDeviceType.NONE => 0
  | AudioDeviceType.IN_DEFAULT => 1
  | AudioDeviceType.OUT_DEFAULT => 2
  | AudioDeviceType.OUT_HEADSET => 3

/-- Modelled from the spec: the DeviceDescription hash, a pure function of
the (type, connection) fields (spec sections 3 and 4.1). -/
def hashADD (d : AudioDeviceDescription) : Nat :=
  audioDeviceTypeIndex d.type * 2 ^ 128 + hashString d.connection

def audioFormatTypeIndex : AudioFormatType → Nat
  | AudioFormatType.DEFAULT => 0
  | AudioFormatType.SYS_RESERVED_INVALID => 1
  | AudioFormatType.PCM => 2

def pcmTypeIndex : PcmType → Nat
  | PcmType.DEFAULT => 0
  | PcmType.INT_16_BIT => 1

/-- Modelled from the spec: the FormatDescription hash, a pure function of
the (type, pcm, encoding) fields (spec sections 3 and 4.1). -/
def hashAFD (f : AudioFormatDescription) : Nat :=
  (audioFormatTypeIndex f.type * 4 + pcmTypeIndex f.pcm) * 2 ^ 128 + hashString f.encoding

/-- The seven ChannelLayout representatives of the hash-identity check
(test file lines 200-204). -/
def aclHashReps : List AudioChannelLayout :=
  [make_ACL_None, make_ACL_Invalid, make_ACL_Stereo, make_ACL_LayoutArbitrary,
   make_ACL_ChannelIndex2, make_ACL_ChannelIndexArbitrary, make_ACL_VoiceCall]

/-- The five DeviceDescription representatives of the hash-identity check
(test file lines 206-210). -/
def addHashReps : List AudioDeviceDescription :=
  [make_ADD_None, make_ADD_DefaultIn, make_ADD_DefaultOut,
   make_ADD_WiredHeadset, make_ADD_BtScoHeadset]

/-- The six FormatDescription representatives of the hash-identity check
(test file lines 212-216). -/
def afdHashReps : List AudioFormatDescription :=
  [make_AFD_Default, make_AFD_Invalid, make_AFD_Pcm16Bit,
   make_AFD_Bitstream, make_AFD_Encap, make_AFD_Encap_with_Enc]

/-!
Gain conversion (spec section 4.1, gain conversion paragraph).  The legacy
gain structure carries a mode bitmask, a direction-scoped channel mask, four
signed level fields and two ramp durations; direction is an explicit side
input to both conversion functions.
-/

/-- The legacy gain structure with its eight fields (external legacy value
model, spec section 6). -/
structure audio_gain where
  mode : Nat
  channel_mask : Nat
  min_value : Int
  max_value : Int
  default_value : Int
  step_value : Int
  min_ramp_ms : Nat
  max_ramp_ms : Nat
deriving DecidableEq

/-- The interface-description AudioGain value mirroring the eight legacy
fields, with the channel mask held as a ChannelLayout (spec section 3). -/
structure AudioGain where
  mode : Nat
  channelMask : AudioChannelLayout
  minValue : Int
  maxValue : Int
  defaultValue : Int
  stepValue : Int
  minRampMs : Nat
  maxRampMs : Nat
deriving DecidableEq

/-- Modelled from the spec: the gain-mode bitmask vocabulary
joint/channels/ramp as (legacy bit, interface bit) pairs (spec sections 3
and 4.1); the conversion implementation is not part of this fragment. -/
def gainModePairs : List (Nat × Nat) := [(0x1, 0x1), (0x2, 0x2), (0x4, 0x4)]

/-- Modelled from the spec: legacy-to-interface gain conversion; every field
is preserved exactly, with the mode bitmask and the direction-scoped channel
mask translated through their vocabularies (spec section 4.1).  The
implementation file is not part of this fragment. -/
def legacy2aidl_audio_gain_AudioGain (g : audio_gain) (isInput : Bool) : Option AudioGain :=
  match convertBits gainModePairs g.mode,
        legacy2aidl_audio_channel_mask_t_AudioChannelLayout g.channel_mask isInput with
  | some m, some cm =>
      some { mode := m, channelMask := cm, minValue := g.min_value, maxValue := g.max_value,
             defaultValue := g.default_value, stepValue := g.step_value,
             minRampMs := g.min_ramp_ms, maxRampMs := g.max_ramp_ms }
  | _, _ => Option.none

/-- Modelled from the spec: interface-to-legacy gain conversion, the inverse
translation of the mode bitmask and channel mask with all level and ramp
fields preserved exactly (spec section 4.1). -/
def aidl2legacy_AudioGain_audio_gain (a : AudioGain) (isInput : Bool) : Option audio_gain :=
  match convertBits (swapPairs gainModePairs) a.mode,
        aidl2legacy_AudioChannelLayout_audio_channel_mask_t a.channelMask isInput with
  | some m, some cm =>
      some { mode := m, channel_mask := cm, min_value := a.minValue, max_value := a.maxValue,
             default_value := a.defaultValue, step_value := a.stepValue,
             min_ramp_ms := a.minRampMs, max_ramp_ms := a.maxRampMs }
  | _, _ => Option.none

def AUDIO_GAIN_MODE_JOINT : Nat := 0x1

/-- The first example gain of the conformance suite (test file lines
468-475): joint mode on the input stereo mask. -/
def example_gain_0 : audio_gain :=
  { mode := AUDIO_GAIN_MODE_JOINT, channel_mask := AUDIO_CHANNEL_IN_STEREO,
    min_value := -3200, max_value := 600, default_value := 0, step_value := 100,
    min_ramp_ms := 10, max_ramp_ms := 20 }

/-- The second example gain of the conformance suite (test file lines
476-483): joint mode on the input mono mask. -/
def example_gain_1 : audio_gain :=
  { mode := AUDIO_GAIN_MODE_JOINT, channel_mask := AUDIO_CHANNEL_IN_MONO,
    min_value := -8800, max_value := 4000, default_value := 0, step_value := 100,
    min_ramp_ms := 192, max_ramp_ms := 224 }

/-!
Straightforward enumeration vocabularies (spec section 4.1, direct mode,
standard, encapsulation metadata type and gain mode paragraph).  Each
interface literal maps to a fixed legacy integer constant and back.
-/

/-- The DirectMode enumeration literals (external interface, spec section 3). -/
inductive AudioDirectMode where
  | NONE : AudioDirectMode
  | OFFLOAD : AudioDirectMode
  | OFFLOAD_GAPLESS : AudioDirectMode
  | BITSTREAM : AudioDirectMode
deriving DecidableEq

/-- Modelled from the spec: interface-to-legacy direct-mode mapping table
(spec section 4.1); the implementation is not part of this fragment. -/
def aidl2legacy_AudioDirectMode_audio_direct_mode_t : AudioDirectMode → Option Nat
  | AudioDirectMode.NONE => some 0x0
  | AudioDirectMode.OFFLOAD => some 0x1
  | AudioDirectMode.OFFLOAD_GAPLESS => some 0x3
  | AudioDirectMode.BITSTREAM => some 0x4

/-- Modelled from the spec: legacy-to-interface direct-mode mapping table
(spec section 4.1). -/
def legacy2aidl_audio_direct_mode_t_AudioDirectMode : Nat → Option AudioDirectMode
  | 0x0 => some AudioDirectMode.NONE
  | 0x1 => some AudioDirectMode.OFFLOAD
  | 0x3 => some AudioDirectMode.OFFLOAD_GAPLESS
  | 0x4 => some AudioDirectMode.BITSTREAM
  | _ => Option.none

/-- The Standard enumeration literals exercised by the suite (spec
section 3). -/
inductive AudioStandard where
  | NONE : AudioStandard
  | EDID : AudioStandard
deriving DecidableEq

/-- Modelled from the spec: interface-to-legacy standard mapping table. -/
def aidl2legacy_AudioStandard_audio_standard_t : AudioStandard → Option Nat
  | AudioStandard.NONE => some 0x0
  | AudioStandard.EDID => some 0x1

/-- Modelled from the spec: legacy-to-interface standard mapping table. -/
def legacy2aidl_audio_standard_t_AudioStandard : Nat → Option AudioStandard
  | 0x0 => some AudioStandard.NONE
  | 0x1 => some AudioStandard.EDID
  | _ => Option.none

/-- The EncapsulationMetadataType enumeration literals (spec section 3). -/
inductive AudioEncapsulationMetadataType where
  | NONE : AudioEncapsulationMetadataType
  | FRAMEWORK_TUNER : AudioEncapsulationMetadataType
  | DVB_AD_DESCRIPTOR : AudioEncapsulationMetadataType
deriving DecidableEq

/-- Modelled from the spec: interface-to-legacy encapsulation metadata type
mapping table. -/
def aidl2legacy_AudioEncapsulationMetadataType_audio_encapsulation_metadata_type_t :
    AudioEncapsulationMetadataType → Option Nat
  | AudioEncapsulationMetadataType.NONE => some 0x0
  | AudioEncapsulationMetadataType.FRAMEWORK_TUNER => some 0x1
  | AudioEncapsulationMetadataType.DVB_AD_DESCRIPTOR => some 0x2

/-- Modelled from the spec: legacy-to-interface encapsulation metadata type
mapping table. -/
def legacy2aidl_audio_encapsulation_metadata_type_t_AudioEncapsulationMetadataType :
    Nat → Option AudioEncapsulationMetadataType
  | 0x0 => some AudioEncapsulationMetadataType.NONE
  | 0x1 => some AudioEncapsulationMetadataType.FRAMEWORK_TUNER
  | 0x2 => some AudioEncapsulationMetadataType.DVB_AD_DESCRIPTOR
  | _ => Option.none

/-- The GainMode enumeration literals (spec section 3). -/
inductive AudioGainMode where
  | JOINT : AudioGainMode
  | CHANNELS : AudioGainMode
  | RAMP : AudioGainMode
deriving DecidableEq

/-- Modelled from the spec: interface-to-legacy gain-mode literal mapping,
each literal to its legacy bit constant. -/
def aidl2legacy_AudioGainMode_audio_gain_mode_t : AudioGainMode → Option Nat
  | AudioGainMode.JOINT => some 0x1
  | AudioGainMode.CHANNELS => some 0x2
  | AudioGainMode.RAMP => some 0x4

/-- Modelled from the spec: legacy-to-interface gain-mode literal mapping. -/
def legacy2aidl_audio_gain_mode_t_AudioGainMode : Nat → Option AudioGainMode
  | 0x1 => some AudioGainMode.JOINT
  | 0x2 => some AudioGainMode.CHANNELS
  | 0x4 => some AudioGainMode.RAMP
  | _ => Option.none

/-!
The NDK media muxer binding, embedded from NdkMediaMuxer.cpp.  The internal
multiplexing engine is outside this fragment's scope (spec sections 1 and
4.3), so it is represented by an abstract write operation; memory reachable
from a sample pointer is modelled as a byte list indexed by address.
-/

def AMEDIA_OK : Int := 0

def AMEDIA_ERROR_UNKNOWN : Int := -10000

/-- Modelled from the spec: translation of an engine status code into the
binding's status domain (spec section 4.3, "status from engine"); the
translation table's source file is not part of this fragment.  Success maps
to AMEDIA_OK, anything else to an error status. -/
def translate_error (status : Int) : Int :=
  if status = 0 then AMEDIA_OK else AMEDIA_ERROR_UNKNOWN

/-- The buffer-info quad passed to writeSampleData, from NdkMediaMuxer.cpp's
AMediaCodecBufferInfo parameter: byte offset, byte size, presentation
timestamp in microseconds and a flags bitmask. -/
structure AMediaCodecBufferInfo where
  offset : Nat
  size : Nat
  presentationTimeUs : Int
  flags : Nat
deriving DecidableEq

/-- The internal multiplexing engine reached through the handle, abstracted
to its writeSampleData operation: it receives the forwarded byte buffer,
track index, timestamp and flags and yields an engine status code. -/
structure MediaMuxerBase where
  writeSampleData : List Nat → Nat → Int → Nat → Int

/-- The opaque muxer handle from NdkMediaMuxer.cpp: it exclusively owns one
engine reference. -/
structure AMediaMuxer where
  mImpl : MediaMuxerBase

/-- The byte contents of an ABuffer constructed over the memory at the given
address with the given capacity, as in NdkMediaMuxer.cpp line 95: the
capacity-long byte run starting at the address. -/
def ABuffer_bytes (mem : List Nat) (ptr size : Nat) : List Nat :=
  (mem.drop ptr).take size

/-- Embedded from NdkMediaMuxer.cpp lines 92-98: build a buffer over the
bytes at data + offset with capacity size, and forward it with the track
index, presentation timestamp and flags to the engine's writeSampleData,
translating the returned engine status. -/
def AMediaMuxer_writeSampleData (muxer : AMediaMuxer) (trackIdx : Nat)
    (mem : List Nat) (data : Nat) (info : AMediaCodecBufferInfo) : Int :=
  let buf := ABuffer_bytes mem (data + info.offset) info.size
  translate_error (muxer.mImpl.writeSampleData buf trackIdx info.presentationTimeUs info.flags)

/-- Embedded from NdkMediaMuxer.cpp lines 57-62: destroy the handle (a
no-op on a null handle, like delete on a null pointer) and return AMEDIA_OK
on every path. -/
def AMediaMuxer_delete (muxer : Option AMediaMuxer) : Int :=
  match muxer with
  | Option.some _ => AMEDIA_OK
  | Option.none => AMEDIA_OK

/-!
The media extractor service packaging descriptor, embedded from the
prebuilt_etc module of services/mediaextractor/Android.bp lines 67-91.
-/

/-- A prebuilt artifact module of the build descriptor: its name, the fixed
install sub-directory, the per-architecture source selection as
(architecture, source file) pairs, and the modules it additionally
requires. -/
structure PrebuiltEtc where
  name : String
  sub_dir : String
  arch_srcs : List (String × String)
  required : List String

/-- Embedded from services/mediaextractor/Android.bp lines 67-91: the
mediaextractor.policy module with its five per-architecture syscall
allow-list files under the seccomp_policy sub-directory and its two required
shared allow-lists. -/
def mediaextractor_policy : PrebuiltEtc :=
  { name := "mediaextractor.policy",
    sub_dir := "seccomp_policy",
    arch_srcs := [
      ("arm", "seccomp_policy/mediaextractor-arm.policy"),
      ("arm64", "seccomp_policy/mediaextractor-arm64.policy"),
      ("riscv64", "seccomp_policy/mediaextractor-riscv64.policy"),
      ("x86", "seccomp_policy/mediaextractor-x86.policy"),
      ("x86_64", "seccomp_policy/mediaextractor-x86_64.policy")],
    required := ["crash_dump.policy", "code_coverage.policy"] }

/-- An architecture name of the build descriptor denotes a 64-bit target
exactly when it carries the 64 suffix (arm64, riscv64, x86_64). -/
def archIs64Bit (arch : String) : Bool :=
  decide (arch.data.reverse.take 2 = ['4', '6'])

/-- Claim C1: for every ChannelLayout built from exactly one named
output-direction position flag, converting to legacy with direction=output
succeeds, and converting the result back with direction=output yields the
original value exactly. -/
theorem acl_out_named_flag_roundTrip :
    ∀ c ∈ outNamedChannelFlags,
      (aidl2legacy_AudioChannelLayout_audio_channel_mask_t
          (AudioChannelLayout.layoutMask c) false).bind
        (fun legacy => legacy2aidl_audio_channel_mask_t_AudioChannelLayout legacy false) =
      some (AudioChannelLayout.layoutMask c) := by
  decide

/-- Witness for claim C1 at the front-left position flag. -/
theorem acl_out_named_flag_roundTrip_witness :
    (aidl2legacy_AudioChannelLayout_audio_channel_mask_t
        (AudioChannelLayout.layoutMask CHANNEL_FRONT_LEFT) false).bind
      (fun legacy => legacy2aidl_audio_channel_mask_t_AudioChannelLayout legacy false) =
    some (AudioChannelLayout.layoutMask CHANNEL_FRONT_LEFT) :=
  acl_out_named_flag_roundTrip CHANNEL_FRONT_LEFT (by decide)

/-- Claim C2: the five invalid legacy input masks of the edge-case table are
rejected by legacy-to-interface conversion with direction=input:
stereo OR voice-uplink, stereo OR voice-downlink, the legacy 6-channel mask,
the 6-channel mask OR front-processed, and the OR of the four sensor bits. -/
theorem acl_invalid_input_masks_rejected :
    legacy2aidl_audio_channel_mask_t_AudioChannelLayout
      (AUDIO_CHANNEL_IN_STEREO ||| AUDIO_CHANNEL_IN_VOICE_UPLINK) true = Option.none ∧
    legacy2aidl_audio_channel_mask_t_AudioChannelLayout
      (AUDIO_CHANNEL_IN_STEREO ||| AUDIO_CHANNEL_IN_VOICE_DNLINK) true = Option.none ∧
    legacy2aidl_audio_channel_mask_t_AudioChannelLayout
      AUDIO_CHANNEL_IN_6 true = Option.none ∧
    legacy2aidl_audio_channel_mask_t_AudioChannelLayout
      (AUDIO_CHANNEL_IN_6 ||| AUDIO_CHANNEL_IN_FRONT_PROCESSED) true = Option.none ∧
    legacy2aidl_audio_channel_mask_t_AudioChannelLayout
      (AUDIO_CHANNEL_IN_PRESSURE ||| AUDIO_CHANNEL_IN_X_AXIS |||
       AUDIO_CHANNEL_IN_Y_AXIS ||| AUDIO_CHANNEL_IN_Z_AXIS) true = Option.none := by
  refine ⟨?_, ?_, ?_, ?_, ?_⟩ <;> decide

/-- Counterexample to claim C3 as stated: the two valid output-direction
edge-case masks, front-center OR low-frequency OR top-front-right and
front-center OR low-frequency OR top-back-left, do NOT share the same legacy
numeric bit pattern with each other (0x400C versus 0x800C). -/
theorem acl_edge_out_masks_not_equal_counterexample :
    ¬ (AUDIO_CHANNEL_OUT_FRONT_CENTER ||| AUDIO_CHANNEL_OUT_LOW_FREQUENCY |||
         AUDIO_CHANNEL_OUT_TOP_FRONT_RIGHT
       = AUDIO_CHANNEL_OUT_FRONT_CENTER ||| AUDIO_CHANNEL_OUT_LOW_FREQUENCY |||
         AUDIO_CHANNEL_OUT_TOP_BACK_LEFT) := by
  decide

/-- Claim C3 amended: each of the two valid output-direction edge-case masks
shares its legacy numeric bit pattern with one of the invalid input-direction
masks of the same table (stereo OR voice-uplink, and stereo OR
voice-downlink, respectively), not with each other, and each converts
successfully via legacy-to-interface conversion with direction=output. -/
theorem acl_edge_out_masks_collide_with_input_and_convert :
    (AUDIO_CHANNEL_OUT_FRONT_CENTER ||| AUDIO_CHANNEL_OUT_LOW_FREQUENCY |||
       AUDIO_CHANNEL_OUT_TOP_FRONT_RIGHT
     = AUDIO_CHANNEL_IN_STEREO ||| AUDIO_CHANNEL_IN_VOICE_UPLINK) ∧
    (AUDIO_CHANNEL_OUT_FRONT_CENTER ||| AUDIO_CHANNEL_OUT_LOW_FREQUENCY |||
       AUDIO_CHANNEL_OUT_TOP_BACK_LEFT
     = AUDIO_CHANNEL_IN_STEREO ||| AUDIO_CHANNEL_IN_VOICE_DNLINK) ∧
    (legacy2aidl_audio_channel_mask_t_AudioChannelLayout
      (AUDIO_CHANNEL_OUT_FRONT_CENTER ||| AUDIO_CHANNEL_OUT_LOW_FREQUENCY |||
       AUDIO_CHANNEL_OUT_TOP_FRONT_RIGHT) false
     = some (AudioChannelLayout.layoutMask
         (CHANNEL_FRONT_CENTER ||| CHANNEL_LOW_FREQUENCY ||| CHANNEL_TOP_FRONT_RIGHT))) ∧
    (legacy2aidl_audio_channel_mask_t_AudioChannelLayout
      (AUDIO_CHANNEL_OUT_FRONT_CENTER ||| AUDIO_CHANNEL_OUT_LOW_FREQUENCY |||
       AUDIO_CHANNEL_OUT_TOP_BACK_LEFT) false
     = some (AudioChannelLayout.layoutMask
         (CHANNEL_FRONT_CENTER ||| CHANNEL_LOW_FREQUENCY ||| CHANNEL_TOP_BACK_LEFT))) := by
  refine ⟨?_, ?_, ?_, ?_⟩ <;> decide

/-- Claim C4: hashes are pure functions of structure, so structurally
identical independent constructions hash equal; and within each of the three
representative sets of the hash-identity check (seven ChannelLayouts, five
DeviceDescriptions, six FormatDescriptions) every value's hash differs from
every other value's hash. -/
theorem hash_identity_representatives :
    (∀ a b : AudioChannelLayout, a = b → hashACL a = hashACL b) ∧
    (∀ a b : AudioDeviceDescription, a = b → hashADD a = hashADD b) ∧
    (∀ a b : AudioFormatDescription, a = b → hashAFD a = hashAFD b) ∧
    (aclHashReps.map hashACL).Pairwise (· ≠ ·) ∧
    (addHashReps.map hashADD).Pairwise (· ≠ ·) ∧
    (afdHashReps.map hashAFD).Pairwise (· ≠ ·) := by
  refine ⟨fun a b h => by rw [h], fun a b h => by rw [h], fun a b h => by rw [h], ?_, ?_, ?_⟩
  all_goals decide

/-- Witness for claim C4: the stereo representative hashes equal to an
independently written construction of the same layout. -/
theorem hash_identity_representatives_witness :
    hashACL make_ACL_Stereo = hashACL (AudioChannelLayout.layoutMask LAYOUT_STEREO) :=
  hash_identity_representatives.1 make_ACL_Stereo
    (AudioChannelLayout.layoutMask LAYOUT_STEREO) rfl

/-- Claim C5: the two example legacy gains of the conformance suite,
converted with direction=input to the interface representation and back,
succeed and preserve all eight fields exactly. -/
theorem gain_examples_input_roundTrip :
    ((legacy2aidl_audio_gain_AudioGain example_gain_0 true).bind
      (fun a => aidl2legacy_AudioGain_audio_gain a true)) = some example_gain_0 ∧
    ((legacy2aidl_audio_gain_AudioGain example_gain_1 true).bind
      (fun a => aidl2legacy_AudioGain_audio_gain a true)) = some example_gain_1 := by
  refine ⟨?_, ?_⟩ <;> decide

/-- Claim C6: every declared literal of the DirectMode, Standard,
EncapsulationMetadataType and GainMode enumerations converts to legacy
successfully, and converting the result back returns the original literal
unchanged. -/
theorem enum_literals_roundTrip :
    (∀ m : AudioDirectMode,
      (aidl2legacy_AudioDirectMode_audio_direct_mode_t m).bind
        legacy2aidl_audio_direct_mode_t_AudioDirectMode = some m) ∧
    (∀ s : AudioStandard,
      (aidl2legacy_AudioStandard_audio_standard_t s).bind
        legacy2aidl_audio_standard_t_AudioStandard = some s) ∧
    (∀ t : AudioEncapsulationMetadataType,
      (aidl2legacy_AudioEncapsulationMetadataType_audio_encapsulation_metadata_type_t t).bind
        legacy2aidl_audio_encapsulation_metadata_type_t_AudioEncapsulationMetadataType
        = some t) ∧
    (∀ g : AudioGainMode,
      (aidl2legacy_AudioGainMode_audio_gain_mode_t g).bind
        legacy2aidl_audio_gain_mode_t_AudioGainMode = some g) := by
  refine ⟨?_, ?_, ?_, ?_⟩ <;> intro x <;> cases x <;> rfl

/-- Claim C7: for every handle, memory, sample address, track index and
buffer info, writeSampleData forwards to the engine exactly the size-long
byte run starting at the byte offset within the pointed-to sample bytes,
together with the unchanged presentation timestamp, flags and track index,
and returns the translated engine status. -/
theorem writeSampleData_forwards_slice (muxer : AMediaMuxer) (trackIdx : Nat)
    (mem : List Nat) (data : Nat) (info : AMediaCodecBufferInfo) :
    AMediaMuxer_writeSampleData muxer trackIdx mem data info =
      translate_error (muxer.mImpl.writeSampleData
        (((mem.drop data).drop info.offset).take info.size)
        trackIdx info.presentationTimeUs info.flags) := by
  unfold AMediaMuxer_writeSampleData ABuffer_bytes
  rw [List.drop_drop, Nat.add_comm data info.offset]

/-- Claim C9: the media extractor packaging descriptor declares exactly five
per-architecture syscall allow-list policy files, for arm, arm64, riscv64,
x86 and x86_64 (two 32-bit and three 64-bit targets), installed under the
fixed seccomp_policy sub-directory, and additionally requires the
crash_dump.policy and code_coverage.policy shared allow-lists. -/
theorem mediaextractor_policy_shape :
    mediaextractor_policy.arch_srcs.map Prod.fst
      = ["arm", "arm64", "riscv64", "x86", "x86_64"] ∧
    mediaextractor_policy.arch_srcs.length = 5 ∧
    ((mediaextractor_policy.arch_srcs.map Prod.fst).filter
      (fun a => ! archIs64Bit a)).length = 2 ∧
    ((mediaextractor_policy.arch_srcs.map Prod.fst).filter
      (fun a => archIs64Bit a)).length = 3 ∧
    mediaextractor_policy.sub_dir = "seccomp_policy" ∧
    mediaextractor_policy.required = ["crash_dump.policy", "code_coverage.policy"] := by
  refine ⟨?_, ?_, ?_, ?_, ?_, ?_⟩ <;> decide

/-- Claim C10: destroying a muxer handle returns AMEDIA_OK for every
argument, including the null handle, and the returned status never depends
on the handle. -/
theorem delete_always_ok :
    (∀ m : Option AMediaMuxer, AMediaMuxer_delete m = AMEDIA_OK) ∧
    AMediaMuxer_delete Option.none = AMEDIA_OK ∧
    (∀ a b : Option AMediaMuxer, AMediaMuxer_delete a = AMediaMuxer_delete b) := by
  refine ⟨fun m => ?_, rfl, fun a b => ?_⟩
  · cases m <;> rfl
  · cases a <;> cases b <;> rfl
